import Mathlib

/-!
Shallow embedding of the Sanofi project-allocation report server
(`src/unnamed/part_001`).  JS strings are modelled as Lean `String`
(or `List Char` in the sheet-name sanitizer, where character-level
reasoning is needed), JS numbers as `ℚ`, and JS values that may be
`undefined` or `null` as `Option`/`JsNum`.
-/

/-- Model of a JS numeric field that may be `undefined`, `null`, or a number.
The source distinguishes `=== undefined` (validation failure) from `null`/`0`
(valid), so all three shapes are kept apart. -/
inductive JsNum where
  | undef
  | null
  | num (q : ℚ)
deriving DecidableEq

/-- JS `x || 0` on a numeric field: `undefined` and `null` are falsy and give 0;
a number `q` gives `q` (for `q = 0` the JS expression also yields 0 = `q`). -/
def JsNum.orZero : JsNum → ℚ
  | .undef => 0
  | .null => 0
  | .num q => q

/-- JS `s || d` for an optional string: `undefined`/`null` and the empty string
are falsy and give the default `d`. -/
def jsStrOr (o : Option String) (d : String) : String :=
  match o with
  | some s => if s = "" then d else s
  | none => d

/-- JS truthiness of an optional string field (`undefined`/`null`/`""` falsy). -/
def jsTruthyStr : Option String → Bool
  | some s => decide (s ≠ "")
  | none => false

/-- One declared month from `meta.months`: `{key, label}`. -/
structure Month where
  key : String
  label : String
deriving DecidableEq

/-- A per-month cell of a row: `{planned, actual}`. -/
structure MonthCell where
  planned : JsNum
  actual : JsNum
deriving DecidableEq

/-- One allocation row of a sheet payload (fields used by the PDF/Excel paths). -/
structure Row where
  level : Option String
  label : Option String
  allocated_effort_to_date : JsNum
  actual_effort_to_date : JsNum
  effortPct : JsNum
  months : Option (List (String × MonthCell))
deriving DecidableEq

/-- JS `row.months?.[month.key] || { planned: 0, actual: 0 }`: property lookup
by key in the row's months object, defaulting to a zero cell. -/
def Row.monthCell (r : Row) (key : String) : MonthCell :=
  match r.months with
  | none => ⟨.num 0, .num 0⟩
  | some l =>
    match l.lookup key with
    | none => ⟨.num 0, .num 0⟩
    | some c => c

/-- A date span object; the source reads `.start` and `.end` (the latter is a
Lean keyword, hence the field name `end_`). -/
structure Span where
  start : String
  end_ : String
deriving DecidableEq

/-- `context.metric_definitions`: four optional definition strings. -/
structure MetricDefs where
  allocated_effort_to_date : Option String
  actual_effort_to_date : Option String
  variance_hours : Option String
  effort_utilized_pct : Option String
deriving DecidableEq

/-- `context.date_context`: optional span objects. -/
structure DateContext where
  project_span : Option Span
  portfolio_span : Option Span
  reporting_period : Option Span
deriving DecidableEq

/-- `meta.context` of a sheet payload. -/
structure RawContext where
  type : Option String
  title : Option String
  description : Option String
  projectNumber : Option String
  projectName : Option String
  date_context : Option DateContext
  metric_definitions : Option MetricDefs
  notes : Option (List String)
deriving DecidableEq

/-- `meta` of a sheet payload. -/
structure PayloadMeta where
  months : Option (List Month)
  context : Option RawContext
  generatedOn : Option String
deriving DecidableEq

/-- The `{meta, rows}` part of a payload (one sheet's worth of data). -/
structure SheetPayload where
  meta : Option PayloadMeta
  rows : Option (List Row)
deriving DecidableEq

/-- One entry of a multi-tab payload's `sheets` array. -/
structure SheetEntry where
  sheetName : Option String
  payload : Option SheetPayload
deriving DecidableEq

/-- The request payload: either multi-tab (`sheets` present) or a single-sheet
object carrying `meta`/`rows` directly. -/
structure Payload where
  sheets : Option (List SheetEntry)
  meta : Option PayloadMeta
  rows : Option (List Row)
deriving DecidableEq

/-- The whole payload viewed as a sheet payload (the source passes the payload
object itself where a `{meta, rows}` object is expected). -/
def Payload.asSheetPayload (p : Payload) : SheetPayload := ⟨p.meta, p.rows⟩

/-! ### validatePayloadFields (source lines 58-85) -/

/-- Validation's sheet normalization (lines 62-64): use `payload.sheets` when it
is an array, otherwise wrap the payload as `[{sheetName:'Sheet', payload}]`. -/
def validationSheets (p : Payload) : List SheetEntry :=
  match p.sheets with
  | some l => l
  | none => [⟨some "Sheet", some p.asSheetPayload⟩]

/-- `(sheetEntry.payload || payload).rows || []` (lines 67-68). -/
def SheetEntry.rowsIn (e : SheetEntry) (p : Payload) : List Row :=
  ((e.payload.getD p.asSheetPayload).rows).getD []

/-- The error strings one row contributes (lines 71-78): one entry per missing
field, `allocated_effort_to_date` checked first, each `=== undefined` only. -/
def rowErrors (sheetName : String) (rowIdx : ℕ) (row : Row) : List String :=
  (if row.allocated_effort_to_date = JsNum.undef then
    ["Sheet \"" ++ sheetName ++ "\", row " ++ toString (rowIdx + 1) ++ " (" ++
      jsStrOr row.label "unnamed" ++
      "): missing required field \x27allocated_effort_to_date\x27"]
   else []) ++
  (if row.actual_effort_to_date = JsNum.undef then
    ["Sheet \"" ++ sheetName ++ "\", row " ++ toString (rowIdx + 1) ++ " (" ++
      jsStrOr row.label "unnamed" ++
      "): missing required field \x27actual_effort_to_date\x27"]
   else [])

/-- `rows.forEach((row, rowIdx) => ...)`: accumulate row errors in order. -/
def rowsErrors (sheetName : String) : ℕ → List Row → List String
  | _, [] => []
  | i, r :: rest => rowErrors sheetName i r ++ rowsErrors sheetName (i + 1) rest

/-- `sheets.forEach((sheetEntry, sheetIdx) => ...)` (lines 66-79), with the
sheet display name `sheetEntry.sheetName || `Sheet ${sheetIdx+1}``. -/
def sheetsErrors (p : Payload) : ℕ → List SheetEntry → List String
  | _, [] => []
  | i, e :: rest =>
    rowsErrors (jsStrOr e.sheetName ("Sheet " ++ toString (i + 1))) 0 (e.rowsIn p) ++
      sheetsErrors p (i + 1) rest

/-- The full `errors` array collected by `validatePayloadFields`. -/
def validationErrors (p : Payload) : List String :=
  sheetsErrors p 0 (validationSheets p)

/-- The itemized part of the failure message: `errors.slice(0, 10)`. -/
def itemizedErrors (errors : List String) : List String := errors.take 10

/-- The omitted-violation count appended to the message: `errors.length - 10`
when `errors.length > 10`, nothing otherwise. -/
def omittedCount (errors : List String) : Option ℕ :=
  if errors.length > 10 then some (errors.length - 10) else none

/-- The thrown message (line 82): header, up to 10 itemized violations joined
with newlines, and a `... and (N-10) more errors` tail when more than 10. -/
def validationMessage (errors : List String) : String :=
  "Payload validation failed. Required fields missing:\n" ++
    String.intercalate "\n" (itemizedErrors errors) ++
    (match omittedCount errors with
     | some k => "\n... and " ++ toString k ++ " more errors"
     | none => "")

/-- `validatePayloadFields` (lines 58-85): throw the aggregated message when
any violation was collected, return silently otherwise. -/
def validatePayloadFields (p : Payload) : Except String Unit :=
  let errors := validationErrors p
  if errors.length > 0 then Except.error (validationMessage errors)
  else Except.ok ()

/-! ### processPayloadForPDF (source lines 569-726) -/

/-- One entry of the `monthlyTotals` object, in insertion order. -/
structure MonthlyTot where
  key : String
  label : String
  planned : ℚ
  actual : ℚ
deriving DecidableEq

/-- The `monthlyTotals[month.key]` update (lines 612-617): create
`{label, planned: 0, actual: 0}` on first touch (appended in insertion order,
as for a JS object's new key), then add the cell's values. -/
def bumpMonthly (d : List MonthlyTot) (m : Month) (p a : ℚ) : List MonthlyTot :=
  if d.any (fun e => e.key = m.key) then
    d.map (fun e =>
      if e.key = m.key then { e with planned := e.planned + p, actual := e.actual + a }
      else e)
  else d ++ [⟨m.key, m.label, p, a⟩]

/-- Body of the role-row loop (lines 607-619): add the row's to-date efforts to
the running grand totals and fold its month cells into `monthlyTotals`. -/
def accumulateRole (months : List Month) (acc : ℚ × ℚ × List MonthlyTot) (r : Row) :
    ℚ × ℚ × List MonthlyTot :=
  ⟨acc.1 + r.allocated_effort_to_date.orZero,
   acc.2.1 + r.actual_effort_to_date.orZero,
   months.foldl
     (fun d m =>
       let cell := r.monthCell m.key
       bumpMonthly d m cell.planned.orZero cell.actual.orZero)
     acc.2.2⟩

/-- Grand totals of a sheet (lines 602-619): filter to `level === 'role'` rows
and fold; returns `(grandTotalAllocated, grandTotalActual, monthlyTotals)`. -/
def sheetTotals (rows : List Row) (months : List Month) : ℚ × ℚ × List MonthlyTot :=
  (rows.filter (fun r => decide (r.level = some "role"))).foldl (accumulateRole months) (0, 0, [])

/-- The per-sheet `grandTotal` object (lines 621-624 and 672-677). -/
structure GrandTotal where
  allocated : ℚ
  actual : ℚ
  variance : ℚ
  effortPct : ℚ
deriving DecidableEq

/-- Derive the `grandTotal` fields from the summed totals:
`variance = allocated - actual`, `effortPct = allocated > 0 ?
actual/allocated*100 : 0` (lines 621-624). -/
def mkGrandTotal : ℚ × ℚ × List MonthlyTot → GrandTotal
  | (a, c, _) => ⟨a, c, a - c, if a > 0 then c / a * 100 else 0⟩

/-- One processed table row (lines 627-634). -/
structure ProcessedRow where
  label : Option String
  allocatedToDate : ℚ
  actualToDate : ℚ
  variance : ℚ
  effortPct : ℚ
  isRole : Bool
deriving DecidableEq

/-- `rows.map(row => ({...}))` (lines 627-634): per-row derived fields; the
row-level `effortPct` is passed through from the payload, not recomputed. -/
def processRow (r : Row) : ProcessedRow :=
  { label := r.label
    allocatedToDate := r.allocated_effort_to_date.orZero
    actualToDate := r.actual_effort_to_date.orZero
    variance := r.allocated_effort_to_date.orZero - r.actual_effort_to_date.orZero
    effortPct := r.effortPct.orZero
    isRole := decide (r.level = some "role") }

/-- The resolved context block (lines 640-663): `summary` or `project` shape. -/
inductive ContextBlock where
  | summary (title description : String) (portfolioSpan reportingPeriod : Option Span)
      (metricDefinitions : Option MetricDefs) (notes : List String)
  | project (title description : String) (projectSpan reportingPeriod : Option Span)
      (metricDefinitions : Option MetricDefs)
deriving DecidableEq

/-- Context block extraction (lines 636-663).  `projectSpan` is exactly
`context.date_context?.project_span || null` — there is no fallback to the
reporting-period dates when `project_span` is absent. -/
def resolveContextBlock (sheetName : String) (ctx : Option RawContext) : Option ContextBlock :=
  match ctx with
  | none => none
  | some c =>
    if c.type = some "summary" then
      some (.summary (jsStrOr c.title "Summary") (jsStrOr c.description "")
        (c.date_context.bind (fun d => d.portfolio_span))
        (c.date_context.bind (fun d => d.reporting_period))
        c.metric_definitions
        (c.notes.getD []))
    else if c.type = some "project" then
      some (.project (jsStrOr c.title sheetName) (jsStrOr c.description "")
        (c.date_context.bind (fun d => d.project_span))
        (c.date_context.bind (fun d => d.reporting_period))
        c.metric_definitions)
    else none

/-- One processed sheet pushed onto `sheets` (lines 667-678). -/
structure PSheet where
  sheetName : String
  rows : List ProcessedRow
  contextBlock : Option ContextBlock
  isSummary : Bool
  grandTotal : GrandTotal
deriving DecidableEq

/-- One entry of `chartsData` (lines 681-689). -/
structure ChartData where
  labels : List String
  allocated : List ℚ
  actual : List ℚ
deriving DecidableEq

/-- Lookup of `monthlyTotals[m.key]` when building chart series. -/
def mtLookup (d : List MonthlyTot) (key : String) : Option MonthlyTot :=
  d.find? (fun e => e.key = key)

/-- Strip a leading `PRJ<digits> - ` prefix (the regex
`^PRJ\d+\s*-\s*` of line 699) from a name, character by character. -/
def stripPRJNumber (s : List Char) : List Char :=
  match s with
  | 'P' :: 'R' :: 'J' :: rest =>
    if (rest.takeWhile Char.isDigit) = [] then s
    else
      match (rest.dropWhile Char.isDigit).dropWhile Char.isWhitespace with
      | '-' :: rest2 => rest2.dropWhile Char.isWhitespace
      | _ => s
  | _ => s

/-- Lowercase a character for the case-insensitive `Sanofi` match. -/
def lowerChar (c : Char) : Char := c.toLower

/-- Strip a leading `Sanofi - ` (case-insensitive, regex `^Sanofi\s*-\s*/i` of
line 701) from a name. -/
def stripSanofi (s : List Char) : List Char :=
  match s.take 6, s.drop 6 with
  | [a, b, c, d, e, f], rest =>
    if [lowerChar a, lowerChar b, lowerChar c, lowerChar d, lowerChar e, lowerChar f] =
        ['s', 'a', 'n', 'o', 'f', 'i'] then
      match rest.dropWhile Char.isWhitespace with
      | '-' :: rest2 => rest2.dropWhile Char.isWhitespace
      | _ => s
    else s
  | _, _ => s

/-- `extractProjectName` (lines 694-707): strip the PRJ number and `Sanofi - `
prefixes, then truncate to 22 chars plus `...` when longer than 25. -/
def extractProjectName (sheetName : String) : String :=
  let name := stripSanofi (stripPRJNumber sheetName.data)
  if name.length > 25 then ⟨name.take 22 ++ "...".data⟩ else ⟨name⟩

/-- One entry of `projectsBarData` (lines 709-718). -/
structure ProjectBar where
  label : String
  fullName : String
  allocated : ℚ
  used : ℚ
  unused : ℚ
  utilization : ℚ
deriving DecidableEq

/-- Build a `projectsBarData` entry from a non-summary sheet (lines 711-718),
with `unused = Math.max(0, allocated - actual)`. -/
def mkProjectBar (s : PSheet) : ProjectBar :=
  { label := extractProjectName s.sheetName
    fullName := s.sheetName
    allocated := s.grandTotal.allocated
    used := s.grandTotal.actual
    unused := max 0 (s.grandTotal.allocated - s.grandTotal.actual)
    utilization := s.grandTotal.effortPct }

/-- Body of the `rawSheets.forEach` loop (lines 581-690): resolve the display
name (Summary renaming with the project count, or project-number renaming from
context), compute grand totals and monthly rollups, process rows, resolve the
context block, and produce this sheet's chart series. -/
def processSheetEntry (p : Payload) (projectCount : ℕ) (entry : SheetEntry) :
    PSheet × ChartData :=
  let sheetName0 := jsStrOr entry.sheetName "Sheet"
  let sheetPayload := entry.payload.getD p.asSheetPayload
  let rows := sheetPayload.rows.getD []
  let months := (sheetPayload.meta.bind (fun m => m.months)).getD []
  let context := sheetPayload.meta.bind (fun m => m.context)
  let sheetName :=
    if sheetName0 = "Summary" then "Summary - " ++ toString projectCount ++ " projects"
    else
      match context with
      | some c =>
        if jsTruthyStr c.projectNumber && jsTruthyStr c.projectName then
          c.projectNumber.getD "" ++ " - " ++ c.projectName.getD ""
        else if jsTruthyStr c.projectNumber then c.projectNumber.getD ""
        else sheetName0
      | none => sheetName0
  let totals := sheetTotals rows months
  let monthlyTotals := totals.2.2
  let psheet : PSheet :=
    { sheetName := sheetName
      rows := rows.map processRow
      contextBlock := resolveContextBlock sheetName context
      isSummary := decide (entry.sheetName = some "Summary")
      grandTotal := mkGrandTotal totals }
  let chart : ChartData :=
    { labels := months.map (fun m => m.label)
      allocated := months.map (fun m => ((mtLookup monthlyTotals m.key).map
        (fun e => e.planned)).getD 0)
      actual := months.map (fun m => ((mtLookup monthlyTotals m.key).map
        (fun e => e.actual)).getD 0) }
  (psheet, chart)

/-- The value returned by `processPayloadForPDF` (lines 720-725). -/
structure ProcessedData where
  generatedOn : String
  sheets : List PSheet
  chartsData : List ChartData
  projectsBarData : List ProjectBar
deriving DecidableEq

/-- `processPayloadForPDF` (lines 569-726).  The impure
`new Date().toISOString()...` default for `generatedOn` is passed in as the
pure argument `now`. -/
def processPayloadForPDF (now : String) (p : Payload) : ProcessedData :=
  let rawSheets :=
    match p.sheets with
    | some l => l
    | none => [⟨some "Resource Allocation", some p.asSheetPayload⟩]
  let projectCount :=
    (rawSheets.filter (fun s => decide (s.sheetName ≠ some "Summary"))).length
  let pairs := rawSheets.map (processSheetEntry p projectCount)
  let sheets := pairs.map Prod.fst
  { generatedOn := jsStrOr (p.meta.bind (fun m => m.generatedOn)) now
    sheets := sheets
    chartsData := pairs.map Prod.snd
    projectsBarData := (sheets.filter (fun s => !s.isSummary)).map mkProjectBar }

/-! ### buildGaugeSVG (source lines 734-814) -/

/-- The data of one SVG arc path emitted by `describeArc` (lines 762-772).
The path string `M start.x start.y A r r 0 largeArcFlag sweepFlag end.x end.y`
is a function of these parameters (the endpoints are `polarToCartesian` of the
same center/radius/angles), so two arcs render the same path string iff these
parameters agree; an absent arc models the empty path string. -/
structure Arc where
  cx : ℚ
  cy : ℚ
  r : ℚ
  startDeg : ℚ
  endDeg : ℚ
  largeArcFlag : Bool
  sweepFlag : Bool
deriving DecidableEq

/-- `describeArc` (lines 762-772): `largeArcFlag` is set when the swept angle
exceeds 180°, `sweepFlag` when the start angle exceeds the end angle. -/
def describeArc (cx cy r startDeg endDeg : ℚ) : Arc :=
  { cx := cx, cy := cy, r := r, startDeg := startDeg, endDeg := endDeg
    largeArcFlag := decide (|endDeg - startDeg| > 180)
    sweepFlag := decide (startDeg > endDeg) }

/-- `pct = plannedHours > 0 ? (actualHours / plannedHours) * 100 : 0`
(line 743). -/
def gaugePct (actualHours plannedHours : ℚ) : ℚ :=
  if plannedHours > 0 then actualHours / plannedHours * 100 else 0

/-- The numeric and path data of the gauge SVG. -/
structure Gauge where
  pct : ℚ
  basePct : ℚ
  overflowPct : ℚ
  overflowShownPct : ℚ
  overflowDeg : ℚ
  theta : ℚ
  bgPath : Arc
  valPath : Option Arc
  overflowPath : Option Arc
deriving DecidableEq

/-- `buildGaugeSVG` (lines 734-814), restricted to its numeric/geometry
content: the percentage split, the three arc paths, and the overflow cap
`overflowShownPct = min(overflowPct, 50)` with
`overflowDeg = (overflowShownPct / 100) * 90`. -/
def buildGaugeSVG (actualHours plannedHours : ℚ) : Gauge :=
  let width : ℚ := 320
  let height : ℚ := 200
  let strokeWidth : ℚ := 40
  let cx := width / 2
  let cy := height - 30
  let r := min (width / 2 - strokeWidth / 2 - 10) (height - strokeWidth / 2 - 20)
  let pct := gaugePct actualHours plannedHours
  let basePct := max 0 (min 100 pct)
  let overflowPct := max 0 (pct - 100)
  let theta := 180 - basePct / 100 * 180
  let bgPath := describeArc cx cy r 180 0
  let valPath := if basePct > 0 then some (describeArc cx cy r 180 theta) else none
  let overflowCapPct : ℚ := 50
  let overflowShownPct := min overflowPct overflowCapPct
  let overflowDeg := overflowShownPct / 100 * 90
  let overflowPath :=
    if overflowShownPct > 0 then some (describeArc cx cy r 0 (-overflowDeg)) else none
  { pct := pct, basePct := basePct, overflowPct := overflowPct
    overflowShownPct := overflowShownPct, overflowDeg := overflowDeg, theta := theta
    bgPath := bgPath, valPath := valPath, overflowPath := overflowPath }

/-! ### renderPDFHtml row cells (source lines 1112-1131) -/

/-- The content of one rendered table cell.  Number formatting is kept
symbolic: `num q` stands for `formatNum(q)`, `pct q` for `formatPct(q)`,
`text s` for the interpolated label, and `blank` for the empty string `''`
(which is distinct from every formatted number, since `formatNum` always
produces at least one digit). -/
inductive CellVal where
  | blank
  | num (q : ℚ)
  | pct (q : ℚ)
  | text (s : Option String)
deriving DecidableEq

/-- The five cells of one rendered table row, in column order. -/
structure RenderedRow where
  labelCell : CellVal
  allocatedCell : CellVal
  actualCell : CellVal
  varianceCell : CellVal
  effortCell : CellVal
deriving DecidableEq

/-- The row-cell computation of `renderPDFHtml` (lines 1115-1131): in
simplified mode (`hideUserAllocatedData`) the allocated, variance and
effort-percent cells of user rows render as `''`; the label and actual cells
are always populated from the row. -/
def renderRowCells (hideUserAllocatedData : Bool) (row : ProcessedRow) : RenderedRow :=
  let isUser := !row.isRole
  { labelCell := .text row.label
    allocatedCell :=
      if hideUserAllocatedData && isUser then .blank else .num row.allocatedToDate
    actualCell := .num row.actualToDate
    varianceCell :=
      if hideUserAllocatedData && isUser then .blank else .num row.variance
    effortCell :=
      if hideUserAllocatedData && isUser then .blank else .pct row.effortPct }

/-! ### makeSafeUniqueSheetName (source lines 460-495)

Sheet names are modelled as `List Char` so that truncation and suffix
reasoning stay elementary. -/

/-- The characters removed from Excel sheet names (line 464). -/
def isInvalidSheetChar (c : Char) : Bool :=
  c = ':' || c = '\\' || c = '/' || c = '?' || c = '*' || c = '[' || c = ']'

/-- Collapse each run of whitespace to a single space, tracking whether the
previous character was whitespace — `name.replace(/\s+/g, ' ')` (line 467). -/
def collapseWSAux : Bool → List Char → List Char
  | _, [] => []
  | prevWS, c :: rest =>
    if c.isWhitespace then
      if prevWS then collapseWSAux true rest else ' ' :: collapseWSAux true rest
    else c :: collapseWSAux false rest

/-- `name.replace(/\s+/g, ' ')`. -/
def collapseWS (l : List Char) : List Char := collapseWSAux false l

/-- JS `String.prototype.trim`: drop leading and trailing whitespace. -/
def trimChars (l : List Char) : List Char :=
  ((l.dropWhile Char.isWhitespace).reverse.dropWhile Char.isWhitespace).reverse

/-- Lines 461-474: strip invalid characters to spaces, collapse whitespace and
trim, default to `Sheet` when empty, and truncate to 31 characters (re-trimmed).
The initial `rawName || 'Sheet'` default coincides with the empty-name check
on the modelled inputs (an absent name is passed as `[]`). -/
def sanitizeBase (raw : List Char) : List Char :=
  let name0 := raw.map (fun c => if isInvalidSheetChar c then ' ' else c)
  let name1 := trimChars (collapseWS name0)
  let name2 := if name1 = [] then "Sheet".data else name1
  if name2.length > 31 then trimChars (name2.take 31) else name2

/-- The digits of the duplicate counter; faithful for the counters `2..99`
actually produced by the source (the loop gives up past 99). -/
def counterChars (n : ℕ) : List Char :=
  if n < 10 then [Nat.digitChar n] else [Nat.digitChar (n / 10), Nat.digitChar (n % 10)]

/-- The suffix `` ` (${counter})` `` of line 481. -/
def counterSuffix (n : ℕ) : List Char :=
  ' ' :: '(' :: (counterChars n ++ [')'])

/-- The candidate name tried for a given counter (lines 481-487): the base,
truncated and re-trimmed when the suffix would overflow 31 characters,
followed by the suffix. -/
def candidateName (base : List Char) (counter : ℕ) : List Char :=
  let suffix := counterSuffix counter
  let maxBaseLength := 31 - suffix.length
  let trimmedBase :=
    if base.length > maxBaseLength then trimChars (base.take maxBaseLength) else base
  trimmedBase ++ suffix

/-- The uniqueness loop (lines 477-491): while the current name is taken, try
the next counter's candidate, giving up (returning the last candidate without
re-checking) once the counter passes 99.  The loop runs the counter from 2
to at most 99, i.e. at most 98 iterations, so a fuel of 98 is never
exhausted. -/
def uniquifyFrom (used : List (List Char)) (base : List Char) :
    ℕ → ℕ → List Char → List Char
  | 0, _, name => name
  | fuel + 1, counter, name =>
    if name ∈ used then
      let newName := candidateName base counter
      if counter + 1 > 99 then newName
      else uniquifyFrom used base fuel (counter + 1) newName
    else name

/-- `makeSafeUniqueSheetName` (lines 460-495): sanitize, make unique against
`usedNames`, and record the result (the JS object mutation is modelled by
returning the extended table). -/
def makeSafeUniqueSheetName (raw : List Char) (used : List (List Char)) :
    List Char × List (List Char) :=
  let base := sanitizeBase raw
  let name := uniquifyFrom used base 98 2 base
  (name, name :: used)

/-! ### Auxiliary definitions used in the verification -/

def rowR : Row := ⟨some "role", some "Dev", .num 160, .num 120, .num 75, none⟩

def pW : Payload := ⟨none, some ⟨some [], none, none⟩, some [rowR]⟩

def sW : PSheet :=
  ⟨"Resource Allocation", [⟨some "Dev", 160, 120, 40, 75, true⟩], none, false, ⟨160, 120, 40, 75⟩⟩

def rowU : Row := ⟨some "user", some "Alice", .num 160, .num 120, .num 75, none⟩

def c4Span : Span := ⟨"2025-01-01", "2025-06-30"⟩

def c4Context : RawContext :=
  ⟨some "project", none, none, none, none, some ⟨none, none, some c4Span⟩, none, none⟩

def c4Payload : Payload := ⟨none, some ⟨some [], some c4Context, none⟩, some []⟩

def countRowViolations (r : Row) : ℕ :=
  (if r.allocated_effort_to_date = JsNum.undef then 1 else 0) +
  (if r.actual_effort_to_date = JsNum.undef then 1 else 0)

def undefRow : Row := ⟨none, none, .undef, .undef, .num 0, none⟩

def undefPayload (k : ℕ) : Payload := ⟨none, none, some (List.replicate k undefRow)⟩

def p9 : Payload :=
  ⟨some [⟨some "Summary", none⟩, ⟨some "PRJ01 - X", none⟩, ⟨some "PRJ02 - Y", none⟩],
    none, none⟩

def e9 : ProjectBar := mkProjectBar ⟨"PRJ01 - X", [], none, false, mkGrandTotal (0, 0, [])⟩

def c7Raw : List Char := List.replicate 27 'A' ++ " (2)".data

/-! ### Theorems -/

lemma mkGrandTotal_spec (t : ℚ × ℚ × List MonthlyTot) :
    (mkGrandTotal t).variance = (mkGrandTotal t).allocated - (mkGrandTotal t).actual ∧
    ((mkGrandTotal t).allocated > 0 →
      (mkGrandTotal t).effortPct = (mkGrandTotal t).actual / (mkGrandTotal t).allocated * 100) ∧
    ((mkGrandTotal t).allocated = 0 → (mkGrandTotal t).effortPct = 0) := by
  obtain ⟨a, c, m⟩ := t
  refine ⟨rfl, ?_, ?_⟩ <;> intro h <;> simp only [mkGrandTotal] at h ⊢
  · rw [if_pos h]
  · rw [if_neg]
    rw [h]
    exact lt_irrefl 0

/-- Claim C1: for every sheet produced by `processPayloadForPDF`, the grand
total satisfies `variance = allocated - actual` exactly, and `effortPct` is
`(actual / allocated) * 100` when `allocated > 0` and `0` when `allocated = 0`
(the value is total — never NaN or Infinity — including for an empty rows
array). -/
theorem c1_grandTotal_invariants (now : String) (p : Payload) :
    ∀ s ∈ (processPayloadForPDF now p).sheets,
      s.grandTotal.variance = s.grandTotal.allocated - s.grandTotal.actual ∧
      (s.grandTotal.allocated > 0 →
        s.grandTotal.effortPct = s.grandTotal.actual / s.grandTotal.allocated * 100) ∧
      (s.grandTotal.allocated = 0 → s.grandTotal.effortPct = 0) := by
  intro s hs
  simp only [processPayloadForPDF, List.map_map, List.mem_map] at hs
  obtain ⟨e, _, rfl⟩ := hs
  exact mkGrandTotal_spec _





theorem c1_witness :
    sW.grandTotal.variance = sW.grandTotal.allocated - sW.grandTotal.actual ∧
    (sW.grandTotal.allocated > 0 →
      sW.grandTotal.effortPct = sW.grandTotal.actual / sW.grandTotal.allocated * 100) ∧
    (sW.grandTotal.allocated = 0 → sW.grandTotal.effortPct = 0) :=
  c1_grandTotal_invariants "t" pW sW (by
    simp +decide [processPayloadForPDF, processSheetEntry, sheetTotals, accumulateRole,
      mkGrandTotal, resolveContextBlock, jsStrOr, Payload.asSheetPayload, pW, sW, rowR,
      processRow, JsNum.orZero]
    norm_num)

/-- Claim C2: per-sheet grand totals are computed only from rows with
`level = 'role'`: two sheet payloads whose role-row sublists agree (i.e. user
rows added or removed, role rows and declared months held fixed) produce the
same summed totals and monthly rollups (`sheetTotals`), the same `grandTotal`,
and the same per-month chart series. -/
theorem c2_user_rows_do_not_affect_totals (p : Payload) (pc : ℕ) (name : Option String)
    (meta : Option PayloadMeta) (rows₁ rows₂ : List Row)
    (h : rows₁.filter (fun r => decide (r.level = some "role")) =
        rows₂.filter (fun r => decide (r.level = some "role"))) :
    (∀ months : List Month, sheetTotals rows₁ months = sheetTotals rows₂ months) ∧
    (processSheetEntry p pc ⟨name, some ⟨meta, some rows₁⟩⟩).1.grandTotal =
      (processSheetEntry p pc ⟨name, some ⟨meta, some rows₂⟩⟩).1.grandTotal ∧
    (processSheetEntry p pc ⟨name, some ⟨meta, some rows₁⟩⟩).2 =
      (processSheetEntry p pc ⟨name, some ⟨meta, some rows₂⟩⟩).2 := by
  have ht : ∀ months : List Month, sheetTotals rows₁ months = sheetTotals rows₂ months := by
    intro months
    unfold sheetTotals
    rw [h]
  refine ⟨ht, ?_, ?_⟩
  · exact congrArg mkGrandTotal (ht _)
  · exact congrArg (fun t : ℚ × ℚ × List MonthlyTot =>
      ChartData.mk
        (((meta.bind (fun m => m.months)).getD []).map (fun m => m.label))
        (((meta.bind (fun m => m.months)).getD []).map
          (fun m => ((mtLookup t.2.2 m.key).map (fun e => e.planned)).getD 0))
        (((meta.bind (fun m => m.months)).getD []).map
          (fun m => ((mtLookup t.2.2 m.key).map (fun e => e.actual)).getD 0)))
      (ht _)


theorem c2_witness :
    sheetTotals [rowR] [⟨"2025-01", "Jan 2025"⟩] =
      sheetTotals [rowR, rowU] [⟨"2025-01", "Jan 2025"⟩] ∧
    (processSheetEntry pW 0 ⟨some "S", some ⟨none, some [rowR]⟩⟩).1.grandTotal =
      (processSheetEntry pW 0 ⟨some "S", some ⟨none, some [rowR, rowU]⟩⟩).1.grandTotal :=
  ⟨(c2_user_rows_do_not_affect_totals pW 0 (some "S") none [rowR] [rowR, rowU]
      (by decide)).1 [⟨"2025-01", "Jan 2025"⟩],
   (c2_user_rows_do_not_affect_totals pW 0 (some "S") none [rowR] [rowR, rowU]
      (by decide)).2.1⟩




/-- Claim C4 (code divergence): a sheet whose `meta.context` has type
`project` and supplies a reporting-period span but no dedicated project span
resolves to a context block whose `projectSpan` is `none` — the code performs
no fallback from the project span to the generic reporting dates, so the
project-date line is omitted. -/
theorem c4_project_span_not_filled_from_reporting_dates :
    (processPayloadForPDF "t" c4Payload).sheets.map (fun s => s.contextBlock) =
      [some (ContextBlock.project "Resource Allocation" "" none (some c4Span) none)] := by
  decide

/-- Claim C5 counterexample: at `pct = 150` the full 50 capped overflow
points map to an additional sweep of 45 degrees, not 90 degrees as the claim
states. -/
theorem c5_counterexample :
    (buildGaugeSVG 150 100).overflowShownPct = 50 ∧
    (buildGaugeSVG 150 100).overflowDeg = 45 ∧
    (buildGaugeSVG 150 100).overflowDeg ≠ 90 := by
  refine ⟨?_, ?_, ?_⟩ <;> norm_num [buildGaugeSVG, gaugePct]

/-- Claim C5 amended: in `buildGaugeSVG`, gauge overflow is capped at 50
overflow-percentage-points (`overflowShownPct = min overflowPct 50 ≤ 50`), and
`overflowDeg = overflowShownPct / 100 * 90`, so the capped 50 points map to a
maximum additional sweep of 45 degrees past the right edge. -/
theorem c5_overflow_capped_at_45_degrees (actualHours plannedHours : ℚ) :
    (buildGaugeSVG actualHours plannedHours).overflowShownPct =
      min (buildGaugeSVG actualHours plannedHours).overflowPct 50 ∧
    (buildGaugeSVG actualHours plannedHours).overflowShownPct ≤ 50 ∧
    (buildGaugeSVG actualHours plannedHours).overflowDeg =
      (buildGaugeSVG actualHours plannedHours).overflowShownPct / 100 * 90 ∧
    (buildGaugeSVG actualHours plannedHours).overflowDeg ≤ 45 ∧
    ((buildGaugeSVG actualHours plannedHours).overflowShownPct = 50 →
      (buildGaugeSVG actualHours plannedHours).overflowDeg = 45) := by
  refine ⟨rfl, min_le_right _ _, rfl, ?_, ?_⟩
  · have hs : (buildGaugeSVG actualHours plannedHours).overflowShownPct ≤ 50 :=
      min_le_right _ _
    have hd : (buildGaugeSVG actualHours plannedHours).overflowDeg =
        (buildGaugeSVG actualHours plannedHours).overflowShownPct / 100 * 90 := rfl
    rw [hd]
    linarith
  · intro h
    have hd : (buildGaugeSVG actualHours plannedHours).overflowDeg =
        (buildGaugeSVG actualHours plannedHours).overflowShownPct / 100 * 90 := rfl
    rw [hd, h]
    norm_num

theorem c5_witness :
    (buildGaugeSVG 200 100).overflowShownPct = 50 ∧
    (buildGaugeSVG 200 100).overflowDeg = 45 :=
  ⟨by norm_num [buildGaugeSVG, gaugePct],
   (c5_overflow_capped_at_45_degrees 200 100).2.2.2.2 (by norm_num [buildGaugeSVG, gaugePct])⟩

lemma buildGaugeSVG_overflow_saturated (a p : ℚ) (h : 150 ≤ (buildGaugeSVG a p).pct) :
    (buildGaugeSVG a p).overflowPath =
      some (describeArc (320 / 2) (200 - 30)
        (min (320 / 2 - 40 / 2 - 10) (200 - 40 / 2 - 20)) 0 (-(50 / 100 * 90))) := by
  have hpct : (buildGaugeSVG a p).pct = gaugePct a p := rfl
  rw [hpct] at h
  have h1 : max (0 : ℚ) (gaugePct a p - 100) = gaugePct a p - 100 := by
    rw [max_eq_right]
    linarith
  have h2 : min (gaugePct a p - 100) (50 : ℚ) = 50 := by
    rw [min_eq_right]
    linarith
  simp only [buildGaugeSVG, h1, h2]
  norm_num

/-- Claim C6: gauge overflow saturates at the cap — any two inputs with
positive planned hours whose utilization percentages are both at least 150
produce identical overflow-wedge paths, and at `pct = 100` exactly the
overflow wedge path is empty. -/
theorem c6_overflow_saturation_and_empty_at_100 :
    (∀ a₁ p₁ a₂ p₂ : ℚ, p₁ > 0 → p₂ > 0 →
      150 ≤ (buildGaugeSVG a₁ p₁).pct → 150 ≤ (buildGaugeSVG a₂ p₂).pct →
      (buildGaugeSVG a₁ p₁).overflowPath = (buildGaugeSVG a₂ p₂).overflowPath) ∧
    (∀ a p : ℚ, p > 0 → (buildGaugeSVG a p).pct = 100 →
      (buildGaugeSVG a p).overflowPath = none) := by
  constructor
  · intro a₁ p₁ a₂ p₂ _ _ h₁ h₂
    rw [buildGaugeSVG_overflow_saturated a₁ p₁ h₁, buildGaugeSVG_overflow_saturated a₂ p₂ h₂]
  · intro a p _ h
    have hpct : (buildGaugeSVG a p).pct = gaugePct a p := rfl
    rw [hpct] at h
    have h1 : max (0 : ℚ) (gaugePct a p - 100) = 0 := by
      rw [h]
      norm_num
    simp only [buildGaugeSVG, h1]
    norm_num

theorem c6_witness :
    (buildGaugeSVG 150 100).overflowPath = (buildGaugeSVG 300 100).overflowPath ∧
    (buildGaugeSVG 100 100).overflowPath = none :=
  ⟨c6_overflow_saturation_and_empty_at_100.1 150 100 300 100 (by norm_num) (by norm_num)
      (by norm_num [buildGaugeSVG, gaugePct]) (by norm_num [buildGaugeSVG, gaugePct]),
   c6_overflow_saturation_and_empty_at_100.2 100 100 (by norm_num)
      (by norm_num [buildGaugeSVG, gaugePct])⟩

/-- Claim C8: in simplified render mode (`hideUserAllocatedData = true`),
every non-role row renders with empty allocated, variance and
effort-percentage cells while its label and actual-hours cells carry the
row's values; every role row renders all five cells regardless of mode. -/
theorem c8_simplified_mode_blanks_user_cells (row : ProcessedRow) :
    (row.isRole = false →
      renderRowCells true row =
        ⟨.text row.label, .blank, .num row.actualToDate, .blank, .blank⟩) ∧
    (row.isRole = true → ∀ hideUserAllocatedData : Bool,
      renderRowCells hideUserAllocatedData row =
        ⟨.text row.label, .num row.allocatedToDate, .num row.actualToDate,
          .num row.variance, .pct row.effortPct⟩) := by
  constructor
  · intro h
    simp [renderRowCells, h]
  · intro h hide
    simp [renderRowCells, h]

theorem c8_witness :
    renderRowCells true ⟨some "Alice", 160, 120, 40, 75, false⟩ =
      ⟨.text (some "Alice"), .blank, .num 120, .blank, .blank⟩ ∧
    renderRowCells true ⟨some "Dev", 160, 120, 40, 75, true⟩ =
      ⟨.text (some "Dev"), .num 160, .num 120, .num 40, .pct 75⟩ :=
  ⟨(c8_simplified_mode_blanks_user_cells ⟨some "Alice", 160, 120, 40, 75, false⟩).1 rfl,
   (c8_simplified_mode_blanks_user_cells ⟨some "Dev", 160, 120, 40, 75, true⟩).2 rfl true⟩


lemma rowErrors_length (n : String) (i : ℕ) (r : Row) :
    (rowErrors n i r).length = countRowViolations r := by
  unfold rowErrors countRowViolations
  split <;> split <;> simp

lemma rowErrors_eq_nil_iff (n : String) (i : ℕ) (r : Row) :
    rowErrors n i r = [] ↔
      r.allocated_effort_to_date ≠ JsNum.undef ∧ r.actual_effort_to_date ≠ JsNum.undef := by
  unfold rowErrors
  split <;> split <;> simp_all

lemma rowsErrors_length (n : String) (i : ℕ) (rows : List Row) :
    (rowsErrors n i rows).length = (rows.map countRowViolations).sum := by
  induction rows generalizing i with
  | nil => rfl
  | cons r rest ih => simp [rowsErrors, rowErrors_length, ih]

lemma rowsErrors_eq_nil_iff (n : String) (i : ℕ) (rows : List Row) :
    rowsErrors n i rows = [] ↔
      ∀ r ∈ rows, r.allocated_effort_to_date ≠ JsNum.undef ∧
        r.actual_effort_to_date ≠ JsNum.undef := by
  induction rows generalizing i with
  | nil => simp [rowsErrors]
  | cons r rest ih =>
    simp [rowsErrors, List.append_eq_nil, rowErrors_eq_nil_iff, ih]

lemma sheetsErrors_length (p : Payload) (i : ℕ) (es : List SheetEntry) :
    (sheetsErrors p i es).length =
      (es.map (fun e => ((e.rowsIn p).map countRowViolations).sum)).sum := by
  induction es generalizing i with
  | nil => rfl
  | cons e rest ih => simp [sheetsErrors, rowsErrors_length, ih]

lemma sheetsErrors_eq_nil_iff (p : Payload) (i : ℕ) (es : List SheetEntry) :
    sheetsErrors p i es = [] ↔
      ∀ e ∈ es, ∀ r ∈ e.rowsIn p,
        r.allocated_effort_to_date ≠ JsNum.undef ∧
        r.actual_effort_to_date ≠ JsNum.undef := by
  induction es generalizing i with
  | nil => simp [sheetsErrors]
  | cons e rest ih =>
    simp [sheetsErrors, List.append_eq_nil, rowsErrors_eq_nil_iff, ih]

/-- Claim C3: `validatePayloadFields` succeeds exactly when no row of any
sheet has an `undefined` `allocated_effort_to_date` or `actual_effort_to_date`
(`null` and `0` are valid); the collected error list counts every violation
across all sheets without short-circuiting; on failure the thrown message is
built from the first `min(N, 10)` violations, appending the omitted count
`N - 10` exactly when `N > 10`. -/
theorem c3_validation_contract (p : Payload) :
    (validatePayloadFields p = Except.ok () ↔
      ∀ e ∈ validationSheets p, ∀ r ∈ e.rowsIn p,
        r.allocated_effort_to_date ≠ JsNum.undef ∧ r.actual_effort_to_date ≠ JsNum.undef) ∧
    (validationErrors p).length =
      ((validationSheets p).map (fun e => ((e.rowsIn p).map countRowViolations).sum)).sum ∧
    (validationErrors p ≠ [] →
      validatePayloadFields p = Except.error (validationMessage (validationErrors p))) ∧
    (itemizedErrors (validationErrors p)).length = min (validationErrors p).length 10 ∧
    omittedCount (validationErrors p) =
      (if (validationErrors p).length > 10 then some ((validationErrors p).length - 10)
       else none) := by
  have hnil : validationErrors p = [] ↔
      ∀ e ∈ validationSheets p, ∀ r ∈ e.rowsIn p,
        r.allocated_effort_to_date ≠ JsNum.undef ∧ r.actual_effort_to_date ≠ JsNum.undef :=
    sheetsErrors_eq_nil_iff p 0 _
  have hok : validatePayloadFields p = Except.ok () ↔ validationErrors p = [] := by
    unfold validatePayloadFields
    by_cases h : (validationErrors p).length > 0
    · simp only [if_pos h]
      constructor
      · intro he
        exact absurd he (by simp)
      · intro hn
        rw [hn] at h
        simp at h
    · simp only [if_neg h]
      constructor
      · intro _
        exact List.eq_nil_of_length_eq_zero (by omega)
      · intro _
        trivial
  refine ⟨hok.trans hnil, sheetsErrors_length p 0 _, ?_, ?_, rfl⟩
  · intro hne
    unfold validatePayloadFields
    simp only [if_pos (List.length_pos.mpr hne)]
  · rw [itemizedErrors, List.length_take, Nat.min_comm]



/-- Claim C10: violations are counted per missing field, not per row — a row
with both effort fields `undefined` contributes two error entries, five such
rows reach the 10-entry itemization cap exactly (no overflow note), and six
such rows yield 12 field-level violations with an omitted count of 2. -/
theorem c10_violations_counted_per_field :
    (∀ (n : String) (i : ℕ) (r : Row),
      r.allocated_effort_to_date = JsNum.undef → r.actual_effort_to_date = JsNum.undef →
      (rowErrors n i r).length = 2) ∧
    (validationErrors (undefPayload 5)).length = 10 ∧
    omittedCount (validationErrors (undefPayload 5)) = none ∧
    (validationErrors (undefPayload 6)).length = 12 ∧
    omittedCount (validationErrors (undefPayload 6)) = some 2 := by
  refine ⟨?_, by decide, by decide, by decide, by decide⟩
  intro n i r h1 h2
  rw [rowErrors_length]
  unfold countRowViolations
  rw [if_pos h1, if_pos h2]

theorem c10_witness : (rowErrors "Sheet" 0 undefRow).length = 2 :=
  c10_violations_counted_per_field.1 "Sheet" 0 undefRow rfl rfl

theorem c3_witness :
    validatePayloadFields pW = Except.ok () ∧
    validatePayloadFields (undefPayload 1) =
      Except.error (validationMessage (validationErrors (undefPayload 1))) :=
  ⟨(c3_validation_contract pW).1.mpr (by decide),
   (c3_validation_contract (undefPayload 1)).2.2.1 (by decide)⟩

/-- Claim C9: for a multi-sheet payload with original sheet names
`["Summary", "PRJ01 - X", "PRJ02 - Y"]`, the summary sheet's display name
becomes `"Summary - 2 projects"` (counting the 2 sheets not named `Summary`),
and `projectsBarData` has exactly 2 entries, one per non-Summary sheet, each
with `unused = max 0 (allocated - used)`. -/
theorem c9_summary_rename_and_project_bars (now : String)
    (sp₁ sp₂ sp₃ : Option SheetPayload) (meta : Option PayloadMeta)
    (rows : Option (List Row)) :
    let p : Payload :=
      ⟨some [⟨some "Summary", sp₁⟩, ⟨some "PRJ01 - X", sp₂⟩, ⟨some "PRJ02 - Y", sp₃⟩],
        meta, rows⟩
    let out := processPayloadForPDF now p
    out.sheets.map (fun s => s.isSummary) = [true, false, false] ∧
    out.sheets.head?.map (fun s => s.sheetName) = some "Summary - 2 projects" ∧
    out.projectsBarData.length = 2 ∧
    out.projectsBarData.map (fun e => e.fullName) =
      (out.sheets.filter (fun s => !s.isSummary)).map (fun s => s.sheetName) ∧
    (∀ e ∈ out.projectsBarData, e.unused = max 0 (e.allocated - e.used)) := by
  intro p out
  have h1 : out.sheets.head?.map (fun s => s.sheetName) =
      some ("Summary - " ++ toString (2 : ℕ) ++ " projects") := rfl
  have h2 : "Summary - " ++ toString (2 : ℕ) ++ " projects" = "Summary - 2 projects" := rfl
  refine ⟨rfl, h1.trans (congrArg some h2), rfl, rfl, ?_⟩
  intro e he
  have hbar : out.projectsBarData =
      (out.sheets.filter (fun s => !s.isSummary)).map mkProjectBar := rfl
  rw [hbar] at he
  obtain ⟨s, _, rfl⟩ := List.mem_map.1 he
  rfl



theorem c9_witness :
    (processPayloadForPDF "t" p9).projectsBarData.length = 2 ∧
    e9.unused = max 0 (e9.allocated - e9.used) :=
  ⟨(c9_summary_rename_and_project_bars "t" none none none none none).2.2.1,
   (c9_summary_rename_and_project_bars "t" none none none none none).2.2.2.2 e9
     (List.mem_cons_self _ _)⟩

lemma trimChars_length_le (l : List Char) : (trimChars l).length ≤ l.length := by
  simp only [trimChars, List.length_reverse]
  calc ((l.dropWhile Char.isWhitespace).reverse.dropWhile Char.isWhitespace).length
      ≤ (l.dropWhile Char.isWhitespace).reverse.length :=
        (List.dropWhile_sublist _).length_le
    _ = (l.dropWhile Char.isWhitespace).length := List.length_reverse _
    _ ≤ l.length := (List.dropWhile_sublist _).length_le

lemma counterSuffix_length_le (n : ℕ) : (counterSuffix n).length ≤ 5 := by
  simp only [counterSuffix, counterChars]
  split <;> simp

lemma counterSuffix_length_of_lt10 (n : ℕ) (h : n < 10) : (counterSuffix n).length = 4 := by
  simp [counterSuffix, counterChars, h]

lemma candidateName_length_le (base : List Char) (n : ℕ) :
    (candidateName base n).length ≤ 31 := by
  have hs : (counterSuffix n).length ≤ 5 := counterSuffix_length_le n
  simp only [candidateName, List.length_append]
  split
  case isTrue h =>
    have h2 : (base.take (31 - (counterSuffix n).length)).length ≤
        31 - (counterSuffix n).length := by
      simp [List.length_take]
    have h1 := le_trans (trimChars_length_le _) h2
    omega
  case isFalse h => omega

lemma truncate31_length_le (l : List Char) :
    (if l.length > 31 then trimChars (l.take 31) else l).length ≤ 31 := by
  split
  case isTrue h =>
    exact le_trans (trimChars_length_le _) (by simp [List.length_take])
  case isFalse h => omega

lemma sanitizeBase_length_le (raw : List Char) : (sanitizeBase raw).length ≤ 31 :=
  truncate31_length_le _

lemma uniquifyFrom_length_le (used : List (List Char)) (base : List Char) :
    ∀ (fuel counter : ℕ) (name : List Char), name.length ≤ 31 →
      (uniquifyFrom used base fuel counter name).length ≤ 31 := by
  intro fuel
  induction fuel with
  | zero => intro counter name h; exact h
  | succ f ih =>
    intro counter name h
    simp only [uniquifyFrom]
    split
    · split
      · exact candidateName_length_le base counter
      · exact ih (counter + 1) _ (candidateName_length_le base counter)
    · exact h

lemma uniquifyFrom_not_mem (used : List (List Char)) (base : List Char)
    (fuel counter : ℕ) (name : List Char) (h : name ∉ used) :
    uniquifyFrom used base (fuel + 1) counter name = name := by
  simp only [uniquifyFrom]
  rw [if_neg h]

lemma uniquifyFrom_mem (used : List (List Char)) (base : List Char)
    (fuel counter : ℕ) (name : List Char) (h : name ∈ used) (hc : counter + 1 ≤ 99) :
    uniquifyFrom used base (fuel + 1) counter name =
      uniquifyFrom used base fuel (counter + 1) (candidateName base counter) := by
  simp only [uniquifyFrom]
  rw [if_pos h, if_neg (by omega)]

lemma candidateName_of_lt10 (base : List Char) (n : ℕ) (h : n < 10) :
    candidateName base n =
      (if base.length > 27 then trimChars (base.take 27) else base) ++ counterSuffix n := by
  simp only [candidateName, counterSuffix_length_of_lt10 n h]

lemma candidateName_ne_of_suffix_ne (base : List Char) {i j : ℕ} (hi : i < 10) (hj : j < 10)
    (hne : counterSuffix i ≠ counterSuffix j) :
    candidateName base i ≠ candidateName base j := by
  rw [candidateName_of_lt10 base i hi, candidateName_of_lt10 base j hj]
  intro h
  exact hne (List.append_cancel_left h)

lemma candidateName_ne_base_of_le27 (base : List Char) (n : ℕ) (h : n < 10)
    (hlen : base.length ≤ 27) : candidateName base n ≠ base := by
  rw [candidateName_of_lt10 base n h, if_neg (by omega)]
  intro he
  have hle := congrArg List.length he
  rw [List.length_append, counterSuffix_length_of_lt10 n h] at hle
  omega

lemma candidateName_of_le27 (base : List Char) (n : ℕ) (h : n < 10)
    (hlen : base.length ≤ 27) :
    candidateName base n = base ++ counterSuffix n := by
  rw [candidateName_of_lt10 base n h, if_neg (by omega)]

lemma uniquify_second (fuel : ℕ) (b : List Char) :
    uniquifyFrom [b] b (fuel + 3) 2 b =
      (if candidateName b 2 = b then candidateName b 3 else candidateName b 2) := by
  rw [show fuel + 3 = (fuel + 2) + 1 from rfl,
    uniquifyFrom_mem [b] b (fuel + 2) 2 b (List.mem_singleton_self b) (by omega)]
  by_cases h : candidateName b 2 = b
  · rw [if_pos h, show fuel + 2 = (fuel + 1) + 1 from rfl,
      uniquifyFrom_mem [b] b (fuel + 1) 3 _ (by simp [h]) (by omega)]
    have hne : candidateName b 3 ∉ ([b] : List (List Char)) := by
      simp only [List.mem_singleton]
      intro he
      exact candidateName_ne_of_suffix_ne b (by omega) (by omega) (by decide)
        (he.trans h.symm)
    exact uniquifyFrom_not_mem [b] b fuel 4 _ hne
  · rw [if_neg h]
    exact uniquifyFrom_not_mem [b] b (fuel + 1) 3 _ (by simp [h])

lemma counterSuffix_two : counterSuffix 2 = " (2)".data := by decide

lemma counterSuffix_three : counterSuffix 3 = " (3)".data := by decide

lemma uniquify_third (fuel : ℕ) (b n₂ : List Char)
    (h2 : n₂ = candidateName b 2 ∨ n₂ = candidateName b 3) :
    uniquifyFrom [n₂, b] b (fuel + 4) 2 b ∉ ([n₂, b] : List (List Char)) ∧
    (b.length ≤ 27 → n₂ = b ++ " (2)".data →
      uniquifyFrom [n₂, b] b (fuel + 4) 2 b = b ++ " (3)".data) := by
  have ne23 : candidateName b 2 ≠ candidateName b 3 :=
    candidateName_ne_of_suffix_ne b (by omega) (by omega) (by decide)
  have ne24 : candidateName b 2 ≠ candidateName b 4 :=
    candidateName_ne_of_suffix_ne b (by omega) (by omega) (by decide)
  have ne34 : candidateName b 3 ≠ candidateName b 4 :=
    candidateName_ne_of_suffix_ne b (by omega) (by omega) (by decide)
  have e1 : uniquifyFrom [n₂, b] b (fuel + 4) 2 b =
      uniquifyFrom [n₂, b] b (fuel + 3) 3 (candidateName b 2) := by
    rw [show fuel + 4 = (fuel + 3) + 1 from rfl,
      uniquifyFrom_mem [n₂, b] b (fuel + 3) 2 b (by simp) (by omega)]
  rw [e1]
  by_cases hc2 : candidateName b 2 ∈ ([n₂, b] : List (List Char))
  · have e2 : uniquifyFrom [n₂, b] b (fuel + 3) 3 (candidateName b 2) =
        uniquifyFrom [n₂, b] b (fuel + 2) 4 (candidateName b 3) := by
      rw [show fuel + 3 = (fuel + 2) + 1 from rfl,
        uniquifyFrom_mem [n₂, b] b (fuel + 2) 3 _ hc2 (by omega)]
    rw [e2]
    by_cases hc3 : candidateName b 3 ∈ ([n₂, b] : List (List Char))
    · have e3 : uniquifyFrom [n₂, b] b (fuel + 2) 4 (candidateName b 3) =
          uniquifyFrom [n₂, b] b (fuel + 1) 5 (candidateName b 4) := by
        rw [show fuel + 2 = (fuel + 1) + 1 from rfl,
          uniquifyFrom_mem [n₂, b] b (fuel + 1) 4 _ hc3 (by omega)]
      have hc4 : candidateName b 4 ∉ ([n₂, b] : List (List Char)) := by
        rw [List.mem_pair] at hc2 hc3 ⊢
        push_neg
        constructor
        · rcases h2 with h2 | h2
          · rw [h2]
            exact fun he => ne24 he.symm
          · rw [h2]
            exact fun he => ne34 he.symm
        · rcases hc2 with hc2 | hc2
          · rcases hc3 with hc3 | hc3
            · exact absurd (hc2.trans hc3.symm) ne23
            · exact fun he => ne34 (hc3.trans he.symm)
          · exact fun he => ne24 (hc2.trans he.symm)
      have e4 : uniquifyFrom [n₂, b] b (fuel + 1) 5 (candidateName b 4) =
          candidateName b 4 := by
        rw [show fuel + 1 = fuel + 1 from rfl]
        exact uniquifyFrom_not_mem [n₂, b] b fuel 5 _ hc4
      rw [e3, e4]
      refine ⟨hc4, ?_⟩
      intro hlen hn2
      exfalso
      rw [List.mem_pair] at hc3
      rcases hc3 with hc3 | hc3
      · rw [hn2, ← counterSuffix_two,
          ← candidateName_of_le27 b 2 (by omega) hlen] at hc3
        exact ne23 hc3.symm
      · exact candidateName_ne_base_of_le27 b 3 (by omega) hlen hc3
    · have e3 : uniquifyFrom [n₂, b] b (fuel + 2) 4 (candidateName b 3) =
          candidateName b 3 := by
        rw [show fuel + 2 = (fuel + 1) + 1 from rfl]
        exact uniquifyFrom_not_mem [n₂, b] b (fuel + 1) 4 _ hc3
      rw [e3]
      refine ⟨hc3, ?_⟩
      intro hlen _
      rw [candidateName_of_le27 b 3 (by omega) hlen, counterSuffix_three]
  · have e2 : uniquifyFrom [n₂, b] b (fuel + 3) 3 (candidateName b 2) =
        candidateName b 2 := by
      rw [show fuel + 3 = (fuel + 2) + 1 from rfl]
      exact uniquifyFrom_not_mem [n₂, b] b (fuel + 2) 3 _ hc2
    rw [e2]
    refine ⟨hc2, ?_⟩
    intro hlen hn2
    exfalso
    rw [List.mem_pair] at hc2
    push_neg at hc2
    exact hc2.1 (by rw [hn2, ← counterSuffix_two, ← candidateName_of_le27 b 2 (by omega) hlen])

lemma makeSafeUniqueSheetName_fst (raw : List Char) (used : List (List Char)) :
    (makeSafeUniqueSheetName raw used).1 =
      uniquifyFrom used (sanitizeBase raw) 98 2 (sanitizeBase raw) := rfl

lemma makeSafeUniqueSheetName_snd (raw : List Char) (used : List (List Char)) :
    (makeSafeUniqueSheetName raw used).2 =
      (makeSafeUniqueSheetName raw used).1 :: used := rfl

/-- Claim C7 amended: `makeSafeUniqueSheetName` always returns a name of at
most 31 characters; three calls against the same (initially empty) table with
raw names sanitizing to the same base return pairwise-distinct names, and when
the base is at most 27 characters the second ends in `" (2)"` and the third in
`" (3)"` (for longer bases the truncated-base-plus-suffix candidate can
coincide with the base itself and the counter skips ahead). -/
theorem c7_sheet_names_bounded_and_distinct :
    (∀ (raw : List Char) (used : List (List Char)),
      ((makeSafeUniqueSheetName raw used).1).length ≤ 31) ∧
    (∀ r₁ r₂ r₃ : List Char,
      sanitizeBase r₂ = sanitizeBase r₁ → sanitizeBase r₃ = sanitizeBase r₁ →
      (makeSafeUniqueSheetName r₁ []).1 = sanitizeBase r₁ ∧
      (makeSafeUniqueSheetName r₂ (makeSafeUniqueSheetName r₁ []).2).1 ≠
        (makeSafeUniqueSheetName r₁ []).1 ∧
      (makeSafeUniqueSheetName r₃
          (makeSafeUniqueSheetName r₂ (makeSafeUniqueSheetName r₁ []).2).2).1 ≠
        (makeSafeUniqueSheetName r₁ []).1 ∧
      (makeSafeUniqueSheetName r₃
          (makeSafeUniqueSheetName r₂ (makeSafeUniqueSheetName r₁ []).2).2).1 ≠
        (makeSafeUniqueSheetName r₂ (makeSafeUniqueSheetName r₁ []).2).1 ∧
      ((sanitizeBase r₁).length ≤ 27 →
        (makeSafeUniqueSheetName r₂ (makeSafeUniqueSheetName r₁ []).2).1 =
          sanitizeBase r₁ ++ " (2)".data ∧
        (makeSafeUniqueSheetName r₃
            (makeSafeUniqueSheetName r₂ (makeSafeUniqueSheetName r₁ []).2).2).1 =
          sanitizeBase r₁ ++ " (3)".data)) := by
  constructor
  · intro raw used
    exact uniquifyFrom_length_le used (sanitizeBase raw) 98 2 (sanitizeBase raw)
      (sanitizeBase_length_le raw)
  · intro r₁ r₂ r₃ h₂ h₃
    have ne23 : candidateName (sanitizeBase r₁) 2 ≠ candidateName (sanitizeBase r₁) 3 :=
      candidateName_ne_of_suffix_ne _ (by omega) (by omega) (by decide)
    -- first call returns the base itself
    have e1 : (makeSafeUniqueSheetName r₁ []).1 = sanitizeBase r₁ := by
      rw [makeSafeUniqueSheetName_fst, show (98 : ℕ) = 97 + 1 from rfl]
      exact uniquifyFrom_not_mem [] _ 97 2 _ (by simp)
    have e1t : (makeSafeUniqueSheetName r₁ []).2 = [sanitizeBase r₁] := by
      rw [makeSafeUniqueSheetName_snd, e1]
    -- second call returns a fresh suffixed candidate
    have e2 : (makeSafeUniqueSheetName r₂ (makeSafeUniqueSheetName r₁ []).2).1 =
        (if candidateName (sanitizeBase r₁) 2 = sanitizeBase r₁ then
          candidateName (sanitizeBase r₁) 3 else candidateName (sanitizeBase r₁) 2) := by
      rw [makeSafeUniqueSheetName_fst, h₂, e1t, show (98 : ℕ) = 95 + 3 from rfl]
      exact uniquify_second 95 _
    have hn₂ : (makeSafeUniqueSheetName r₂ (makeSafeUniqueSheetName r₁ []).2).1 =
          candidateName (sanitizeBase r₁) 2 ∨
        (makeSafeUniqueSheetName r₂ (makeSafeUniqueSheetName r₁ []).2).1 =
          candidateName (sanitizeBase r₁) 3 := by
      rw [e2]
      split
      · exact Or.inr rfl
      · exact Or.inl rfl
    have hn₂b : (makeSafeUniqueSheetName r₂ (makeSafeUniqueSheetName r₁ []).2).1 ≠
        sanitizeBase r₁ := by
      rw [e2]
      split
      case isTrue h => exact fun he => ne23 (h.trans he.symm)
      case isFalse h => exact h
    have e2t : (makeSafeUniqueSheetName r₂ (makeSafeUniqueSheetName r₁ []).2).2 =
        [(makeSafeUniqueSheetName r₂ (makeSafeUniqueSheetName r₁ []).2).1,
          sanitizeBase r₁] := by
      rw [makeSafeUniqueSheetName_snd, e1t]
    -- third call
    have h3main := uniquify_third 94 (sanitizeBase r₁)
      (makeSafeUniqueSheetName r₂ (makeSafeUniqueSheetName r₁ []).2).1 hn₂
    have e3 : (makeSafeUniqueSheetName r₃
        (makeSafeUniqueSheetName r₂ (makeSafeUniqueSheetName r₁ []).2).2).1 =
        uniquifyFrom [(makeSafeUniqueSheetName r₂ (makeSafeUniqueSheetName r₁ []).2).1,
          sanitizeBase r₁] (sanitizeBase r₁) (94 + 4) 2 (sanitizeBase r₁) := by
      rw [makeSafeUniqueSheetName_fst, h₃, e2t]
    rw [List.mem_pair] at h3main
    push_neg at h3main
    refine ⟨e1, by rw [e1]; exact hn₂b, ?_, ?_, ?_⟩
    · rw [e1, e3]
      exact h3main.1.2
    · rw [e3]
      exact h3main.1.1
    · intro hlen
      have hc2eq : candidateName (sanitizeBase r₁) 2 = sanitizeBase r₁ ++ " (2)".data := by
        rw [candidateName_of_le27 _ 2 (by omega) hlen, counterSuffix_two]
      have hm2 : (makeSafeUniqueSheetName r₂ (makeSafeUniqueSheetName r₁ []).2).1 =
          sanitizeBase r₁ ++ " (2)".data := by
        rw [e2, if_neg (candidateName_ne_base_of_le27 _ 2 (by omega) hlen), hc2eq]
      refine ⟨hm2, ?_⟩
      rw [e3]
      exact h3main.2 hlen hm2


/-- Claim C7 counterexample: for the 31-character raw name of 27 `A`s
followed by `" (2)"` (which sanitizes to itself), the second call against the
same table returns a name ending in `" (3)"`, not `" (2)"` as the claim
states. -/
theorem c7_counterexample :
    (makeSafeUniqueSheetName c7Raw []).1 = c7Raw ∧
    (makeSafeUniqueSheetName c7Raw (makeSafeUniqueSheetName c7Raw []).2).1 =
      List.replicate 27 'A' ++ " (3)".data ∧
    ¬ " (2)".data <:+ (makeSafeUniqueSheetName c7Raw (makeSafeUniqueSheetName c7Raw []).2).1 := by
  refine ⟨by decide, by decide, ?_⟩
  decide

theorem c7_witness :
    (makeSafeUniqueSheetName "Budget".data []).1 = "Budget".data ∧
    (makeSafeUniqueSheetName "Budget".data (makeSafeUniqueSheetName "Budget".data []).2).1 =
      "Budget (2)".data ∧
    (makeSafeUniqueSheetName "Budget".data
        (makeSafeUniqueSheetName "Budget".data
          (makeSafeUniqueSheetName "Budget".data []).2).2).1 = "Budget (3)".data ∧
    ((makeSafeUniqueSheetName "Budget".data []).1).length ≤ 31 := by
  have h := c7_sheet_names_bounded_and_distinct.2 "Budget".data "Budget".data "Budget".data
    rfl rfl
  have hb : sanitizeBase "Budget".data = "Budget".data := by decide
  have hlen : (sanitizeBase "Budget".data).length ≤ 27 := by decide
  have h5 := h.2.2.2.2 hlen
  refine ⟨h.1.trans hb, ?_, ?_,
    c7_sheet_names_bounded_and_distinct.1 "Budget".data []⟩
  · rw [h5.1, hb]
    decide
  · rw [h5.2, hb]
    decide
